import Mathlib

/-!
Shallow embedding of the movie-app backend (Express handlers over a MySQL
movies table), together with proofs of the behavioural claims of the
specification.  The DECIMAL(3,2) `average_rating` column is modelled the
way MySQL itself stores it, as an exact scaled integer counting hundredths;
the rounding to two fractional digits that the system applies when storing
and reporting an average is half-away-from-zero, made explicit both as the
integer-level `roundDiv` used by the executable model and as the rational
`round2` of the specification, with a proved bridge between the two.  Each
HTTP handler is a pure function from the database state (the list of rows)
and the request to the new state and the response.  JavaScript numbers are
modelled as exact rationals; floating-point artefacts are outside the
scope of the model, as the specification directs.
-/

/-- Round a rational to the nearest integer, halves away from zero: the
rounding applied when a value is stored into a DECIMAL(3,2) column or
formatted to two digits.  Every value the system rounds is nonnegative,
where half-away-from-zero and half-up agree. -/
def roundAway (q : Rat) : Int :=
  if q < 0 then -(Rat.floor (-q + 1/2)) else Rat.floor (q + 1/2)

/-- Round a rational to two fractional digits: the round2 of the spec. -/
def round2 (q : Rat) : Rat :=
  ((roundAway (100 * q) : Int) : Rat) / 100

/-- Integer form of rounding a nonnegative fraction `p / q` to the nearest
integer, halves away from zero.  This is the arithmetic the executable
model computes with; `roundDiv_eq_roundAway` proves it agrees with the
rational rounding. -/
def roundDiv (p q : Nat) : Nat :=
  (2 * p + q) / (2 * q)

/-- One row of the movies table.  `average_rating` is the DECIMAL(3,2)
column in hundredths (MySQL stores a DECIMAL as this scaled integer), so
the decimal value is `average_rating / 100`; `year`, `genre`,
`description` and `poster_url` are nullable columns. -/
structure Movie where
  id : Int
  title : String
  director : String
  year : Option Int
  genre : Option String
  description : Option String
  poster_url : Option String
  average_rating : Nat
  num_ratings : Nat
deriving Repr, DecidableEq

/-- Response of POST /api/movies/:id/rate.  `badId` is the 400 answer for
a malformed id, `invalidRating` the 400 answer of the rating validator,
`notFound` the 404 answer, and `ok` carries `new_average_rating` (in
hundredths) and `new_num_ratings` of the 200 answer. -/
inductive RateResponse where
  | badId : RateResponse
  | invalidRating : RateResponse
  | notFound : RateResponse
  | ok (new_average_rating : Nat) (new_num_ratings : Nat) : RateResponse
deriving Repr, DecidableEq

/-- Validator of a rating value (`validateRating` in server.js): a numeric
payload must be an integer between 1 and 5; it returns an error message
for an invalid value and nothing for a valid one.  Numbers are modelled as
rationals, whose denominator is 1 exactly for the integers; a payload that
is not a number at all fails the same check in the source and is outside
the model. -/
def validateRating (rating : Rat) : Option String :=
  if rating.den ≠ 1 ∨ rating < 1 ∨ 5 < rating then
    some "Rating must be an integer between 1 and 5."
  else none

/-- Handler of POST /api/movies/:id/rate in server.js.  It rejects a
malformed id, then an invalid rating, looks the movie up, reconstructs the
running total from the stored mean, increments the count, stores the new
mean rounded to two digits, and reports that mean and the new count.  In
hundredths the new mean `(A * N + r) / (N + 1)` is
`(100 A_c * N / 100 + 100 r) / (N + 1)`, so its rounded hundredths are
`roundDiv (A_c * N + 100 r) (N + 1)`; `submitRating_formula` proves this
equals the round2 of the source expression.  The validated rating is the
integer `rating.num.toNat`.  The last branch mirrors the affectedRows
check after the UPDATE: the mysql2 driver connects with the FOUND_ROWS
flag, so affectedRows counts the matched rows. -/
def submitRating (db : List Movie) (i : Int) (rating : Rat) :
    List Movie × RateResponse :=
  if i ≤ 0 then (db, .badId)
  else if (validateRating rating).isSome then (db, .invalidRating)
  else
    match db.find? (fun m => m.id == i) with
    | none => (db, .notFound)
    | some m =>
      let r : Nat := rating.num.toNat
      let newNumRatings : Nat := m.num_ratings + 1
      let newAverageRating : Nat :=
        roundDiv (m.average_rating * m.num_ratings + 100 * r) newNumRatings
      let db2 := db.map (fun x => if x.id == i then
          { x with average_rating := newAverageRating,
                   num_ratings := newNumRatings } else x)
      let affected := db.countP (fun x => x.id == i)
      if affected = 0 then (db2, .notFound)
      else (db2, .ok newAverageRating newNumRatings)

/-- One application of the rating fold on an (average in hundredths,
count) aggregate: exactly the arithmetic of the rate handler for an
integer rating `r`. -/
def rateStep (s : Nat × Nat) (r : Nat) : Nat × Nat :=
  (roundDiv (s.1 * s.2 + 100 * r) (s.2 + 1), s.2 + 1)

/-- Submit a list of ratings sequentially through the rate handler,
keeping the database state. -/
def submitAll (db : List Movie) (i : Int) (rs : List Rat) : List Movie :=
  rs.foldl (fun d r => (submitRating d i r).1) db

/-- A catalog row as created fresh: aggregate (0.00, 0). -/
def sampleMovie : Movie :=
  { id := 1, title := "The Shawshank Redemption", director := "Frank Darabont",
    year := some 1994, genre := some "Drama", description := none,
    poster_url := none, average_rating := 0, num_ratings := 0 }

/-- Whether a string trims to the empty string, i.e. holds nothing but
whitespace: the `trim() === emptiness` test of the validators, phrased on
the character list. -/
def blankStr (s : String) : Bool :=
  s.toList.all (fun c => c.isWhitespace)

/-- Case-insensitive substring test on the character lists: the behaviour
of a MySQL LIKE comparison against a needle wrapped in percent wildcards
under the default case-insensitive collation. -/
def sqlLike (needle hay : String) : Bool :=
  ((hay.toList.map Char.toLower).tails).any
    (fun t => (needle.toList.map Char.toLower).isPrefixOf t)

/-- Query string of GET /api/movies/search.  A text parameter that is
absent or empty is falsy in the handler and contributes no criterion;
`year` models the raw year parameter after parseInt, a non-numeric year
string taking the same 400 branch as a nonpositive one. -/
structure SearchQuery where
  title : Option String
  director : Option String
  genre : Option String
  year : Option Int
deriving Repr, DecidableEq

/-- Truthiness of a text query parameter. -/
def present (o : Option String) : Bool := o.getD "" != ""

/-- Response of GET /api/movies/search. -/
inductive SearchResult where
  | badRequest (error : String) : SearchResult
  | ok (rows : List Movie) : SearchResult
deriving Repr, DecidableEq

/-- The WHERE clause the search handler assembles: each present criterion
is an AND conjunct; a LIKE against a NULL column matches nothing. -/
def movieMatches (q : SearchQuery) (m : Movie) : Bool :=
  (!present q.title || sqlLike (q.title.getD "") m.title) &&
  (!present q.director || sqlLike (q.director.getD "") m.director) &&
  (!present q.genre ||
    (match m.genre with | some g => sqlLike (q.genre.getD "") g | none => false)) &&
  (match q.year with | some y => m.year == some y | none => true)

/-- Handler of GET /api/movies/search in server.js: text criteria are
appended for each truthy parameter, a present year must parse to a
positive integer or the request is rejected, and a request with no
criterion at all is rejected. -/
def searchMovies (db : List Movie) (q : SearchQuery) : SearchResult :=
  let textCriteria : Nat :=
    (if present q.title then 1 else 0) + (if present q.director then 1 else 0) +
      (if present q.genre then 1 else 0)
  match q.year with
  | some y =>
    if y ≤ 0 then .badRequest "Search year must be a positive integer."
    else .ok (db.filter (movieMatches q))
  | none =>
    if textCriteria = 0 then
      .badRequest "Please provide at least one search criterion (title, director, genre, or year)."
    else .ok (db.filter (movieMatches q))

/-- Response of DELETE /api/movies/:id. -/
inductive DeleteResponse where
  | badId : DeleteResponse
  | notFound : DeleteResponse
  | ok : DeleteResponse
deriving Repr, DecidableEq

/-- Handler of DELETE /api/movies/:id in server.js: a malformed id is a
400, then the DELETE runs and affectedRows (the number of removed rows)
decides between 404 and 200. -/
def deleteMovie (db : List Movie) (i : Int) : List Movie × DeleteResponse :=
  if i ≤ 0 then (db, .badId)
  else
    let affected := db.countP (fun m => m.id == i)
    if affected = 0 then (db, .notFound)
    else (db.filter (fun m => !(m.id == i)), .ok)

/-- Request body of PUT /api/movies/:id: each updatable column is either
absent (undefined) or a provided value; the handler destructures exactly
these six fields, so any other key in the body is ignored. -/
structure MovieUpdate where
  title : Option String
  director : Option String
  year : Option Int
  genre : Option String
  description : Option String
  poster_url : Option String
deriving Repr, DecidableEq

/-- Validation of a poster URL, modelling the pattern
http(s)://…(jpg|jpeg|png|gif|bmp|webp) case-insensitively: the scheme at
the front, an image extension at the back, and something in between. -/
def posterOk (s : String) : Bool :=
  let low := s.toList.map Char.toLower
  ("http://".toList.isPrefixOf low || "https://".toList.isPrefixOf low) &&
  ([".jpg", ".jpeg", ".png", ".gif", ".bmp", ".webp"].any
    (fun e => e.toList.isSuffixOf low)) &&
  (s.length ≥ 12)

/-- Validation of the updatable fields (`validateMovieData` with
isNew = false): a provided year must be a positive integer, a provided
genre or description must be a nonempty string, a provided poster URL must
match the image-URL pattern.  Title and director checks are guarded by
isNew and do not run for updates. -/
def validateMovieUpdate (u : MovieUpdate) : Option String :=
  if u.year.any (fun y => y ≤ 0) then some "Year must be a positive integer."
  else if u.genre.any (fun g => blankStr g) then some "Genre must be a non-empty string."
  else if u.description.any (fun d => blankStr d) then
    some "Description must be a non-empty string."
  else if u.poster_url.any (fun p => !posterOk p) then
    some "Poster URL must be a valid image URL (http/https)."
  else none

/-- Response of PUT /api/movies/:id. -/
inductive UpdateResponse where
  | badId : UpdateResponse
  | badFields (error : String) : UpdateResponse
  | noFields : UpdateResponse
  | notFound : UpdateResponse
  | ok : UpdateResponse
deriving Repr, DecidableEq

/-- The SET clause of the update: every provided field overwrites the
stored column, every absent field is kept.  The aggregate columns are not
among the six updatable fields. -/
def applyUpdate (u : MovieUpdate) (m : Movie) : Movie :=
  { m with
    title := u.title.getD m.title,
    director := u.director.getD m.director,
    year := match u.year with | some y => some y | none => m.year,
    genre := match u.genre with | some g => some g | none => m.genre,
    description := match u.description with | some d => some d | none => m.description,
    poster_url := match u.poster_url with | some p => some p | none => m.poster_url }

/-- Handler of PUT /api/movies/:id in server.js: a malformed id is a 400,
invalid provided fields are a 400, an empty field list is a 400; then the
UPDATE runs and affectedRows decides between 404 and 200.  The mysql2
driver connects with the FOUND_ROWS flag set, so affectedRows of an
UPDATE counts the matched rows, not the changed ones; the 404 therefore
fires exactly when no row has the requested id. -/
def updateMovie (db : List Movie) (i : Int) (u : MovieUpdate) :
    List Movie × UpdateResponse :=
  if i ≤ 0 then (db, .badId)
  else
    match validateMovieUpdate u with
    | some e => (db, .badFields e)
    | none =>
      if u.title.isNone ∧ u.director.isNone ∧ u.year.isNone ∧ u.genre.isNone ∧
          u.description.isNone ∧ u.poster_url.isNone then (db, .noFields)
      else
        let affected := db.countP (fun m => m.id == i)
        if affected = 0 then (db, .notFound)
        else (db.map (fun m => if m.id == i then applyUpdate u m else m), .ok)

/-- Request body of POST /api/movies: title and director are required,
the rest optional. -/
structure MovieInput where
  title : String
  director : String
  year : Option Int
  genre : Option String
  description : Option String
  poster_url : Option String
deriving Repr, DecidableEq

/-- Validation of a new movie (`validateMovieData` with isNew = true):
title and director must be nonempty strings, and the optional fields obey
the same checks as for an update. -/
def validateMovieInput (d : MovieInput) : Option String :=
  if blankStr d.title then some "Title is required and must be a non-empty string."
  else if blankStr d.director then
    some "Director is required and must be a non-empty string."
  else validateMovieUpdate
    { title := none, director := none, year := d.year, genre := d.genre,
      description := d.description, poster_url := d.poster_url }

/-- Handler of POST /api/movies in server.js: after validation the INSERT
names only the six content columns, so the aggregate columns take their
schema defaults 0.00 and 0; the response repeats the created row.  The
fresh id is the AUTO_INCREMENT key, supplied here by the caller. -/
def createMovie (db : List Movie) (nextId : Int) (d : MovieInput) :
    List Movie × Option Movie :=
  match validateMovieInput d with
  | some _ => (db, none)
  | none =>
    let newMovie : Movie :=
      { id := nextId, title := d.title, director := d.director,
        year := d.year, genre := d.genre, description := d.description,
        poster_url := d.poster_url, average_rating := 0, num_ratings := 0 }
    (db ++ [newMovie], some newMovie)

/-- A second 1994 row and a third row from another year, for the search
scenario. -/
def pulpFiction : Movie :=
  { id := 2, title := "Pulp Fiction", director := "Quentin Tarantino",
    year := some 1994, genre := some "Crime", description := none,
    poster_url := none, average_rating := 0, num_ratings := 0 }

def heat : Movie :=
  { id := 3, title := "Heat", director := "Michael Mann",
    year := some 1995, genre := some "Crime", description := none,
    poster_url := none, average_rating := 0, num_ratings := 0 }

/-- The demo catalog: two 1994 items and one 1995 item. -/
def demoDb : List Movie := [sampleMovie, pulpFiction, heat]

/-- Progress of one in-flight rating submission in the transactional rate
handler (db.js): `idle` before the SELECT … FOR UPDATE, `locked` between
acquiring the row lock (which atomically reads the aggregate snapshot)
and the COMMIT, `done` after the COMMIT (which atomically writes the
aggregate computed from the snapshot and releases the lock). -/
inductive RatePhase where
  | idle : RatePhase
  | locked (snapshot : Nat × Nat) : RatePhase
  | done : RatePhase
deriving Repr, DecidableEq

/-- State of the row of one catalog item under K concurrent rating
submissions: the stored (average in hundredths, count) aggregate, the
holder of the row lock, and the progress of each submitter. -/
structure RateRace (K : Nat) where
  agg : Nat × Nat
  lock : Option (Fin K)
  phase : Fin K → RatePhase

/-- Interleaving semantics of K concurrent transactional submissions to
one row, as db.js executes them: `grab` is the SELECT … FOR UPDATE of
submitter t (it blocks while any other submitter holds the row lock, and
reads the current aggregate), `commit` is the UPDATE + COMMIT of
submitter t (it writes the aggregate computed from the snapshot read
under the lock and releases the lock). -/
inductive RaceStep (K : Nat) (ratings : Fin K → Nat) :
    RateRace K → RateRace K → Prop where
  | grab (s : RateRace K) (t : Fin K) :
      s.lock = none → s.phase t = .idle →
      RaceStep K ratings s
        { agg := s.agg, lock := some t,
          phase := Function.update s.phase t (.locked s.agg) }
  | commit (s : RateRace K) (t : Fin K) (snap : Nat × Nat) :
      s.lock = some t → s.phase t = .locked snap →
      RaceStep K ratings s
        { agg := rateStep snap (ratings t), lock := none,
          phase := Function.update s.phase t .done }

/-- Initial state: the stored aggregate, the lock free, every submitter
yet to run. -/
def raceStart (K : Nat) (init : Nat × Nat) : RateRace K :=
  { agg := init, lock := none, phase := fun _ => .idle }

/-- Invariant of the race: a submitter holding a snapshot holds the lock
and its snapshot is the current aggregate, and the aggregate is the fold
of the ratings of the completed submitters, in their completion order,
over the initial aggregate. -/
def raceInv (K : Nat) (ratings : Fin K → Nat) (init : Nat × Nat)
    (s : RateRace K) : Prop :=
  (∀ t snap, s.phase t = .locked snap → s.lock = some t ∧ snap = s.agg) ∧
  ∃ l : List (Fin K), l.Nodup ∧ (∀ t, t ∈ l ↔ s.phase t = .done) ∧
    s.agg = (l.map ratings).foldl rateStep init

/-- Two concurrent submitters with ratings 4 and 2. -/
def raceRatings : Fin 2 → Nat := ![4, 2]

def raceS0 : RateRace 2 := raceStart 2 (0, 0)

def raceS1 : RateRace 2 :=
  { agg := raceS0.agg, lock := some 0,
    phase := Function.update raceS0.phase 0 (.locked raceS0.agg) }

def raceS2 : RateRace 2 :=
  { agg := rateStep (0, 0) (raceRatings 0), lock := none,
    phase := Function.update raceS1.phase 0 .done }

def raceS3 : RateRace 2 :=
  { agg := raceS2.agg, lock := some 1,
    phase := Function.update raceS2.phase 1 (.locked raceS2.agg) }

def raceS4 : RateRace 2 :=
  { agg := rateStep (400, 1) (raceRatings 1), lock := none,
    phase := Function.update raceS3.phase 1 .done }

/-- Request bodies for the C6 witness. -/
def sampleInput : MovieInput :=
  { title := "Alien", director := "Ridley Scott", year := some 1979,
    genre := some "Horror", description := none, poster_url := none }

def createdSample : Movie :=
  { id := 10, title := "Alien", director := "Ridley Scott", year := some 1979,
    genre := some "Horror", description := none, poster_url := none,
    average_rating := 0, num_ratings := 0 }

def sampleUpdate : MovieUpdate :=
  { title := some "Heat 2", director := none, year := some 2024,
    genre := none, description := none, poster_url := none }

/-- A PUT body repeating the stored title of the Heat row: a no-op
update. -/
def noopUpdate : MovieUpdate :=
  { title := some "Heat", director := none, year := none,
    genre := none, description := none, poster_url := none }

/-- The integer rounding agrees with the rational half-away rounding on
nonnegative fractions. -/
theorem roundDiv_eq_roundAway (p q : Nat) (hq : q ≠ 0) :
    (roundDiv p q : Int) = roundAway ((p : Rat) / (q : Rat)) := by
  have hq0 : (0 : Rat) < (q : Rat) := by exact_mod_cast Nat.pos_of_ne_zero hq
  have hnonneg : (0 : Rat) ≤ (p : Rat) / (q : Rat) :=
    div_nonneg (by positivity) (le_of_lt hq0)
  have hnotlt : ¬ ((p : Rat) / (q : Rat) < 0) := not_lt.mpr hnonneg
  have harg : (p : Rat) / (q : Rat) + 1/2
      = ((2 * p + q : Nat) : Rat) / ((2 * q : Nat) : Rat) := by
    push_cast
    field_simp
    ring
  have hfl : Rat.floor ((p : Rat) / (q : Rat) + 1/2)
      = ((2 * p + q) / (2 * q) : Nat) := by
    show (⌊(p : Rat) / (q : Rat) + 1/2⌋ : Int) = _
    rw [harg, Rat.floor_natCast_div_natCast, ← Int.ofNat_ediv]
  rw [roundAway, if_neg hnotlt, hfl, roundDiv]

/-- Bridging lemma used to state claims: the hundredths the model stores,
divided by 100, are exactly `round2` of the fraction `p / (100 q)`. -/
theorem roundDiv_eq_round2 (p q : Nat) (hq : q ≠ 0) :
    ((roundDiv p q : Nat) : Rat) / 100 = round2 ((p : Rat) / (100 * (q : Rat))) := by
  have hq0 : ((q : Rat)) ≠ 0 := by exact_mod_cast hq
  have harg : 100 * ((p : Rat) / (100 * (q : Rat))) = (p : Rat) / (q : Rat) := by
    field_simp
    ring
  rw [round2, harg, ← roundDiv_eq_roundAway p q hq]
  norm_num

theorem raceInv_start (K : Nat) (ratings : Fin K → Nat) (init : Nat × Nat) :
    raceInv K ratings init (raceStart K init) := by
  refine ⟨fun t snap h => by simp [raceStart] at h, [], by simp, ?_, by simp [raceStart]⟩
  intro t
  simp [raceStart]

theorem raceInv_step (K : Nat) (ratings : Fin K → Nat) (init : Nat × Nat)
    (s s' : RateRace K) (hstep : RaceStep K ratings s s')
    (hinv : raceInv K ratings init s) : raceInv K ratings init s' := by
  obtain ⟨hlock, l, hnodup, hmem, hagg⟩ := hinv
  cases hstep with
  | grab t hfree hidle =>
    refine ⟨?_, l, hnodup, ?_, hagg⟩
    · intro u snap hu
      simp only [Function.update_apply] at hu
      by_cases hut : u = t
      · rw [if_pos hut] at hu
        subst hut
        exact ⟨rfl, (RatePhase.locked.injEq _ _ ▸ hu).symm⟩
      · rw [if_neg hut] at hu
        rcases hlock u snap hu with ⟨hl, _⟩
        rw [hfree] at hl
        exact absurd hl (by simp)
    · intro u
      rw [hmem u]
      simp only [Function.update_apply]
      by_cases hut : u = t
      · subst hut
        rw [if_pos rfl, hidle]
        simp
      · rw [if_neg hut]
  | commit t snap hheld hsnap =>
    rcases hlock t snap hsnap with ⟨_, hsnapagg⟩
    have htnotdone : t ∉ l := fun hmem' => by
      have hdone := (hmem t).mp hmem'
      rw [hsnap] at hdone
      exact absurd hdone (by simp)
    refine ⟨?_, l ++ [t], ?_, ?_, ?_⟩
    · intro u snap' hu
      simp only [Function.update_apply] at hu
      by_cases hut : u = t
      · rw [if_pos hut] at hu
        exact absurd hu (by simp)
      · rw [if_neg hut] at hu
        rcases hlock u snap' hu with ⟨hl, _⟩
        rw [hheld] at hl
        exact absurd (Option.some_injective _ hl).symm hut
    · exact List.Nodup.append hnodup (by simp) (by simpa using htnotdone)
    · intro u
      simp only [Function.update_apply, List.mem_append, List.mem_singleton]
      by_cases hut : u = t
      · subst hut
        simp
      · rw [if_neg hut, hmem u]
        simp [hut]
    · simp only [List.map_append, List.foldl_append, List.map_cons,
        List.map_nil, List.foldl_cons, List.foldl_nil]
      rw [← hagg, hsnapagg]

/-- The invariant holds at every reachable state. -/
theorem raceInv_reachable (K : Nat) (ratings : Fin K → Nat) (init : Nat × Nat)
    (s : RateRace K)
    (hreach : Relation.ReflTransGen (RaceStep K ratings) (raceStart K init) s) :
    raceInv K ratings init s := by
  induction hreach with
  | refl => exact raceInv_start K ratings init
  | tail _ hstep ih => exact raceInv_step K ratings init _ _ hstep ih

/-- Folding any list of ratings adds its length to the count. -/
theorem foldl_rateStep_count (rs : List Nat) :
    ∀ s : Nat × Nat, (rs.foldl rateStep s).2 = s.2 + rs.length := by
  induction rs with
  | nil => intro s; simp
  | cons r rs ih =>
    intro s
    simp only [List.foldl_cons, ih, rateStep, List.length_cons]
    omega

/-- C3: for every item (arbitrary initial aggregate) and every K
concurrent valid rating submissions to that item, every complete
interleaving of the lock-protected read-modify-write steps ends with
`numRatings` equal to the initial count plus K and with the aggregate
equal to the fold of all K ratings in some serial order: the row lock
serializes the transactions, so no submission is lost. -/
theorem rate_race_no_lost_updates (K : Nat) (ratings : Fin K → Nat)
    (_hval : ∀ t, 1 ≤ ratings t ∧ ratings t ≤ 5)
    (init : Nat × Nat) (s : RateRace K)
    (hreach : Relation.ReflTransGen (RaceStep K ratings) (raceStart K init) s)
    (hdone : ∀ t, s.phase t = .done) :
    s.agg.2 = init.2 + K ∧
    ∃ l : List Nat, l.Perm (List.ofFn ratings) ∧ s.agg = l.foldl rateStep init := by
  obtain ⟨-, l, hnodup, hmem, hagg⟩ := raceInv_reachable K ratings init s hreach
  have hperm : l.Perm (List.finRange K) := by
    rw [List.perm_ext_iff_of_nodup hnodup (List.nodup_finRange K)]
    intro t
    simp [hmem t, hdone t, List.mem_finRange]
  have hlen : l.length = K := hperm.length_eq.trans (List.length_finRange K)
  constructor
  · rw [hagg, foldl_rateStep_count]
    simp [hlen]
  · exact ⟨l.map ratings, by simpa [List.ofFn_eq_map] using hperm.map ratings, hagg⟩

/-- Witness for C3: a complete two-submitter run reaches count 2 and the
serial fold of both ratings. -/
theorem rate_race_no_lost_updates_check :
    raceS4.agg.2 = 0 + 2 ∧
    ∃ l : List Nat, l.Perm (List.ofFn raceRatings) ∧
      raceS4.agg = l.foldl rateStep (0, 0) := by
  refine rate_race_no_lost_updates 2 raceRatings (by decide) (0, 0) raceS4 ?_ (by decide)
  have h01 : RaceStep 2 raceRatings raceS0 raceS1 :=
    RaceStep.grab raceS0 0 (by decide) (by decide)
  have h12 : RaceStep 2 raceRatings raceS1 raceS2 :=
    RaceStep.commit raceS1 0 (0, 0) (by decide) (by decide)
  have h23 : RaceStep 2 raceRatings raceS2 raceS3 :=
    RaceStep.grab raceS2 1 (by decide) (by decide)
  have h34 : RaceStep 2 raceRatings raceS3 raceS4 :=
    RaceStep.commit raceS3 1 (400, 1) (by decide) (by decide)
  have h0 : Relation.ReflTransGen (RaceStep 2 raceRatings) raceS0 raceS0 :=
    Relation.ReflTransGen.refl
  exact (((h0.tail h01).tail h12).tail h23).tail h34

/-- An integer rating between 1 and 5 passes the validator. -/
theorem validateRating_none (r : Rat) (hden : r.den = 1) (h1 : 1 ≤ r) (h5 : r ≤ 5) :
    validateRating r = none := by
  unfold validateRating
  rw [if_neg]
  push_neg
  exact ⟨hden, h1, h5⟩

/-- C1: a call to the rate handler for an existing item with stored
aggregate (A, N) (stored as A_c hundredths) and an integer rating r in
[1, 5] persists and returns the new count N + 1 and a new average whose
decimal value is round2 of (A × N + r) / (N + 1). -/
theorem submitRating_formula (db : List Movie) (i : Int) (rating : Rat) (m : Movie)
    (hi : 0 < i) (hden : rating.den = 1) (h1 : 1 ≤ rating) (h5 : rating ≤ 5)
    (hfind : db.find? (fun x => x.id == i) = some m) :
    submitRating db i rating =
      (db.map (fun x => if x.id == i then
          { x with
            average_rating :=
              roundDiv (m.average_rating * m.num_ratings + 100 * rating.num.toNat)
                (m.num_ratings + 1),
            num_ratings := m.num_ratings + 1 } else x),
        .ok (roundDiv (m.average_rating * m.num_ratings + 100 * rating.num.toNat)
              (m.num_ratings + 1)) (m.num_ratings + 1)) ∧
    ((roundDiv (m.average_rating * m.num_ratings + 100 * rating.num.toNat)
        (m.num_ratings + 1) : Nat) : Rat) / 100 =
      round2 ((((m.average_rating : Rat) / 100) * (m.num_ratings : Rat) + rating)
        / ((m.num_ratings : Rat) + 1)) := by
  have hi' : ¬ i ≤ 0 := not_le.mpr hi
  have hvalid : validateRating rating = none := validateRating_none rating hden h1 h5
  have hcount : ¬ db.countP (fun x => x.id == i) = 0 := by
    have hmem := List.mem_of_find?_eq_some hfind
    have hp := List.find?_some hfind
    have hpos : 0 < db.countP (fun x => x.id == i) :=
      List.countP_pos_iff.mpr ⟨m, hmem, hp⟩
    omega
  constructor
  · simp only [submitRating, if_neg hi', hvalid, Option.isSome_none,
      Bool.false_eq_true, if_false, hfind, if_neg hcount]
  · have h0 : (0 : Rat) ≤ rating := le_trans zero_le_one h1
    have h0' : 0 ≤ rating.num := Rat.num_nonneg.mpr h0
    have hnum : ((rating.num.toNat : Nat) : Rat) = rating := by
      rw [← Rat.coe_int_num_of_den_eq_one hden]
      exact_mod_cast Int.toNat_of_nonneg h0'
    rw [roundDiv_eq_round2 _ _ (Nat.succ_ne_zero m.num_ratings)]
    congr 1
    push_cast [hnum]
    have hden1 : ((m.num_ratings : Rat) + 1) ≠ 0 := by positivity
    field_simp
    ring

/-- Witness for C1: rating 3 on the fresh item with id 2 of the demo
catalog. -/
theorem submitRating_formula_check :
    submitRating demoDb 2 3 =
      (demoDb.map (fun x => if x.id == 2 then
          { x with
            average_rating :=
              roundDiv (pulpFiction.average_rating * pulpFiction.num_ratings +
                100 * (3 : Rat).num.toNat) (pulpFiction.num_ratings + 1),
            num_ratings := pulpFiction.num_ratings + 1 } else x),
        .ok (roundDiv (pulpFiction.average_rating * pulpFiction.num_ratings +
              100 * (3 : Rat).num.toNat) (pulpFiction.num_ratings + 1))
          (pulpFiction.num_ratings + 1)) ∧
    ((roundDiv (pulpFiction.average_rating * pulpFiction.num_ratings +
        100 * (3 : Rat).num.toNat) (pulpFiction.num_ratings + 1) : Nat) : Rat) / 100 =
      round2 ((((pulpFiction.average_rating : Rat) / 100) *
        (pulpFiction.num_ratings : Rat) + 3) / ((pulpFiction.num_ratings : Rat) + 1)) :=
  submitRating_formula demoDb 2 3 pulpFiction (by decide) (by decide) (by decide)
    (by decide) (by decide)
/-- Evaluation of the rate handler on a one-row catalog holding the
movie's id: the row aggregate advances by one `rateStep`. -/
theorem submitRating_singleton (m : Movie) (hid : 0 < m.id) (r : Rat)
    (hden : r.den = 1) (h1 : 1 ≤ r) (h5 : r ≤ 5) :
    submitRating [m] m.id r
      = ([{ m with
            average_rating := roundDiv (m.average_rating * m.num_ratings + 100 * r.num.toNat)
              (m.num_ratings + 1),
            num_ratings := m.num_ratings + 1 }],
          .ok (roundDiv (m.average_rating * m.num_ratings + 100 * r.num.toNat)
            (m.num_ratings + 1)) (m.num_ratings + 1)) := by
  have hi' : ¬ m.id ≤ 0 := not_le.mpr hid
  have hvalid := validateRating_none r hden h1 h5
  simp [submitRating, if_neg hi', hvalid]

/-- Sequential submissions to a one-row catalog fold `rateStep` over the
stored aggregate. -/
theorem submitAll_singleton (m : Movie) (hid : 0 < m.id) :
    ∀ (rs : List Rat), (∀ r ∈ rs, r.den = 1 ∧ 1 ≤ r ∧ r ≤ 5) →
      submitAll [m] m.id rs
        = [{ m with
             average_rating :=
               ((rs.map (fun r => r.num.toNat)).foldl rateStep
                 (m.average_rating, m.num_ratings)).1,
             num_ratings :=
               ((rs.map (fun r => r.num.toNat)).foldl rateStep
                 (m.average_rating, m.num_ratings)).2 }] := by
  intro rs
  induction rs generalizing m with
  | nil =>
    intro _
    simp [submitAll]
  | cons r rs ih =>
    intro hval
    obtain ⟨hden, h1, h5⟩ := hval r (List.mem_cons_self r rs)
    have hstep := submitRating_singleton m hid r hden h1 h5
    have htail := ih { m with
        average_rating := roundDiv (m.average_rating * m.num_ratings + 100 * r.num.toNat)
          (m.num_ratings + 1),
        num_ratings := m.num_ratings + 1 } hid
      (fun x hx => hval x (List.mem_cons_of_mem r hx))
    simp only [submitAll, List.foldl_cons] at htail ⊢
    rw [hstep]
    simpa [rateStep] using htail

/-- C2 (amended): sequential valid ratings on a fresh item leave
`numRatings` equal to the number of submissions and `averageRating` equal
to the fold of `rateStep` over the submissions, which reconstructs each
total from the previously rounded mean; the 4, 2, 5 scenario yields
averages 4.00, 3.00, 3.67 (the last being round2 of the true mean 11/3)
with counts 1, 2, 3.  The fold value can differ from round2 of the true
mean of all submissions, as `submitAll_mean_cex` shows. -/
theorem submitAll_fold (m : Movie) (hid : 0 < m.id) (hm0 : m.average_rating = 0)
    (hn0 : m.num_ratings = 0) (rs : List Rat)
    (hval : ∀ r ∈ rs, r.den = 1 ∧ 1 ≤ r ∧ r ≤ 5) :
    submitAll [m] m.id rs
      = [{ m with
           average_rating := ((rs.map (fun r => r.num.toNat)).foldl rateStep (0, 0)).1,
           num_ratings := ((rs.map (fun r => r.num.toNat)).foldl rateStep (0, 0)).2 }]
    ∧ ((rs.map (fun r => r.num.toNat)).foldl rateStep (0, 0)).2 = rs.length
    ∧ rateStep (0, 0) 4 = (400, 1) ∧ rateStep (400, 1) 2 = (300, 2)
    ∧ rateStep (300, 2) 5 = (367, 3)
    ∧ ((367 : Nat) : Rat) / 100 = round2 (((4 : Rat) + 2 + 5) / 3) := by
  refine ⟨?_, ?_, by decide, by decide, by decide, ?_⟩
  · have h := submitAll_singleton m hid rs hval
    rw [hm0, hn0] at h
    exact h
  · rw [foldl_rateStep_count]
    simp
  · have h : ((4 : Rat) + 2 + 5) / 3 = ((1100 : Nat) : Rat) / (100 * ((3 : Nat) : Rat)) := by
      norm_num
    rw [h, ← roundDiv_eq_round2 1100 3 (by decide),
      show roundDiv 1100 3 = 367 from by decide]

/-- Witness for C2: the 4, 2, 5 scenario on the fresh demo item ends at
average 3.67 and count 3. -/
theorem submitAll_fold_check :
    submitAll [sampleMovie] 1 [4, 2, 5]
      = [{ sampleMovie with average_rating := 367, num_ratings := 3 }] := by
  have h := submitAll_fold sampleMovie (by decide) rfl rfl [4, 2, 5] (by decide)
  exact h.1.trans (by decide)

/-- Counterexample for C2 as stated: after the seven valid submissions
1, 1, 1, 1, 1, 2, 1 the stored average is 1.15, but round2 of the true
mean 8/7 is 1.14 — the aggregate reconstructed from the rounded mean has
drifted, so the final average is not round2(mean(r1..rN)). -/
theorem submitAll_mean_cex :
    submitAll [sampleMovie] 1 [1, 1, 1, 1, 1, 2, 1]
      = [{ sampleMovie with average_rating := 115, num_ratings := 7 }] ∧
    round2 (((1 : Rat) + 1 + 1 + 1 + 1 + 2 + 1) / 7) = 114 / 100 ∧
    ((115 : Nat) : Rat) / 100 ≠ 114 / 100 := by
  refine ⟨by decide, ?_, by norm_num⟩
  have h : ((1 : Rat) + 1 + 1 + 1 + 1 + 2 + 1) / 7
      = ((800 : Nat) : Rat) / (100 * ((7 : Nat) : Rat)) := by norm_num
  rw [h, ← roundDiv_eq_round2 800 7 (by decide),
    show roundDiv 800 7 = 114 from by decide]
  norm_num

/-- C4: a rating that is not an integer or lies outside [1, 5] is
rejected by the validator with the 400 InvalidRating answer, and the
database — in particular the aggregate pair of every item — is unchanged. -/
theorem submitRating_invalid (db : List Movie) (i : Int) (rating : Rat)
    (hi : 0 < i) (hbad : rating.den ≠ 1 ∨ rating < 1 ∨ 5 < rating) :
    submitRating db i rating = (db, .invalidRating) := by
  have hi' : ¬ i ≤ 0 := not_le.mpr hi
  have hv : (validateRating rating).isSome = true := by
    unfold validateRating
    rw [if_pos hbad]
    rfl
  simp [submitRating, if_neg hi', hv]

/-- Witness for C4: the in-range non-integer rating 5/2 is rejected and
the demo catalog is untouched. -/
theorem submitRating_invalid_check :
    submitRating demoDb 1 (Rat.divInt 5 2) = (demoDb, .invalidRating) :=
  submitRating_invalid demoDb 1 (Rat.divInt 5 2) (by decide) (by decide)

/-- C5 (amended): submitting a valid rating for an id that matches no
item returns NotFound with the state unchanged; for every rating — valid
or not — the state is unchanged. -/
theorem submitRating_absent (db : List Movie) (i : Int) (rating : Rat)
    (hi : 0 < i) (habs : ∀ m ∈ db, m.id ≠ i)
    (hden : rating.den = 1) (h1 : 1 ≤ rating) (h5 : rating ≤ 5) :
    submitRating db i rating = (db, .notFound) ∧
    ∀ q : Rat, (submitRating db i q).1 = db := by
  have hfind : db.find? (fun m => m.id == i) = none := by
    rw [List.find?_eq_none]
    intro x hx
    simp [habs x hx]
  have hi' : ¬ i ≤ 0 := not_le.mpr hi
  constructor
  · simp [submitRating, if_neg hi', validateRating_none rating hden h1 h5, hfind]
  · intro q
    by_cases h0 : i ≤ 0
    · simp [submitRating, if_pos h0]
    · by_cases hq : (validateRating q).isSome = true
      · simp [submitRating, if_neg h0, hq]
      · simp [submitRating, if_neg h0, hq, hfind]

/-- Counterexample for C5 as stated: the rating 6 sent to the absent id 9
is answered with InvalidRating, not NotFound — validation runs before the
existence check, so "for every rating" fails. -/
theorem submitRating_absent_cex :
    submitRating demoDb 9 6 = (demoDb, RateResponse.invalidRating) ∧
    submitRating demoDb 9 6 ≠ (demoDb, RateResponse.notFound) := by decide

/-- Witness for C5: the valid rating 3 on the absent id 9 yields NotFound,
and even an invalid rating mutates nothing. -/
theorem submitRating_absent_check :
    submitRating demoDb 9 3 = (demoDb, RateResponse.notFound) ∧
    (submitRating demoDb 9 (Rat.divInt 5 2)).1 = demoDb := by
  have h := submitRating_absent demoDb 9 3 (by decide) (by decide) (by decide)
    (by decide) (by decide)
  exact ⟨h.1, h.2 (Rat.divInt 5 2)⟩

/-- C7: a successful rate call rewrites exactly the aggregate pair of the
matched row — the new state is the old one with only `average_rating` and
`num_ratings` of the targeted item overwritten, every other field and
every other item unchanged. -/
theorem submitRating_frame (db : List Movie) (i : Int) (rating : Rat)
    (db' : List Movie) (a n : Nat)
    (hok : submitRating db i rating = (db', .ok a n)) :
    db' = db.map (fun x => if x.id == i then
      { x with average_rating := a, num_ratings := n } else x) := by
  unfold submitRating at hok
  split at hok
  · simp at hok
  · split at hok
    · simp at hok
    · split at hok
      · simp at hok
      · next m hfind =>
        by_cases hc : db.countP (fun x => x.id == i) = 0
        · simp [hc] at hok
        · simp only [if_neg hc] at hok
          simp only [Prod.mk.injEq, RateResponse.ok.injEq] at hok
          obtain ⟨hdb, ha, hn⟩ := hok
          subst ha
          subst hn
          exact hdb.symm

/-- Witness for C7: rating 5 on item 1 of the demo catalog rewrites only
that row's aggregate. -/
theorem submitRating_frame_check :
    [{ sampleMovie with average_rating := 500, num_ratings := 1 }, pulpFiction, heat]
      = demoDb.map (fun x => if x.id == 1 then
          { x with average_rating := 500, num_ratings := 1 } else x) :=
  submitRating_frame demoDb 1 5
    [{ sampleMovie with average_rating := 500, num_ratings := 1 }, pulpFiction, heat]
    500 1 (by decide)

/-- C6: a created item carries the default aggregate (0.00, 0), and the
partial-update handler — for any request body — changes neither
`average_rating` nor `num_ratings` of any row (the six updatable fields
do not include the aggregate columns, and any other key of the body is
dropped by the destructuring). -/
theorem aggregate_only_writer :
    (∀ (db : List Movie) (nextId : Int) (d : MovieInput) (db' : List Movie) (mv : Movie),
      createMovie db nextId d = (db', some mv) →
        mv.average_rating = 0 ∧ mv.num_ratings = 0) ∧
    (∀ (db : List Movie) (i : Int) (u : MovieUpdate),
      ((updateMovie db i u).1).map (fun m => (m.id, m.average_rating, m.num_ratings))
        = db.map (fun m => (m.id, m.average_rating, m.num_ratings))) := by
  constructor
  · intro db nextId d db' mv hc
    unfold createMovie at hc
    split at hc
    · simp at hc
    · simp only [Prod.mk.injEq, Option.some.injEq] at hc
      obtain ⟨-, hmv⟩ := hc
      subst hmv
      exact ⟨rfl, rfl⟩
  · intro db i u
    by_cases h0 : i ≤ 0
    · simp [updateMovie, if_pos h0]
    · cases hv : validateMovieUpdate u with
      | some e => simp [updateMovie, if_neg h0, hv]
      | none =>
        by_cases hnf : (u.title.isNone ∧ u.director.isNone ∧ u.year.isNone ∧
            u.genre.isNone ∧ u.description.isNone ∧ u.poster_url.isNone)
        · simp only [updateMovie, if_neg h0, hv, if_pos hnf]
        · by_cases hc : db.countP (fun m => m.id == i) = 0
          · simp only [updateMovie, if_neg h0, hv, if_neg hnf, if_pos hc]
          · simp only [updateMovie, if_neg h0, hv, if_neg hnf, if_neg hc]
            rw [List.map_map]
            apply List.map_congr_left
            intro m _
            simp only [Function.comp_apply]
            by_cases hmi : (m.id == i) = true
            · rw [if_pos hmi]
              rfl
            · rw [if_neg hmi]

/-- Witness for C6: the created Alien row has aggregate (0.00, 0), and a
title-and-year update of the demo catalog leaves every aggregate in
place. -/
theorem aggregate_only_writer_check :
    createdSample.average_rating = 0 ∧ createdSample.num_ratings = 0 ∧
    ((updateMovie demoDb 3 sampleUpdate).1).map
        (fun m => (m.id, m.average_rating, m.num_ratings))
      = demoDb.map (fun m => (m.id, m.average_rating, m.num_ratings)) := by
  have h := aggregate_only_writer
  have hcreate := h.1 [] 10 sampleInput [createdSample] createdSample (by decide)
  exact ⟨hcreate.1, hcreate.2, h.2 demoDb 3 sampleUpdate⟩

/-- C8: a search with no criterion at all is rejected with 400; a query
consisting of a positive year Y alone succeeds and returns exactly the
catalog items whose year equals Y; and a query with any one of the
title, director or genre substring parameters succeeds with a 200 list. -/
theorem searchMovies_contract (db : List Movie) (y : Int) (t : String)
    (hy : 0 < y) (ht : t ≠ "") :
    searchMovies db { title := none, director := none, genre := none, year := none }
      = .badRequest "Please provide at least one search criterion (title, director, genre, or year)." ∧
    (∃ rows, searchMovies db { title := none, director := none, genre := none, year := some y }
        = .ok rows ∧ ∀ m, m ∈ rows ↔ (m ∈ db ∧ m.year = some y)) ∧
    (∃ rows, searchMovies db { title := some t, director := none, genre := none, year := none }
        = .ok rows) ∧
    (∃ rows, searchMovies db { title := none, director := some t, genre := none, year := none }
        = .ok rows) ∧
    (∃ rows, searchMovies db { title := none, director := none, genre := some t, year := none }
        = .ok rows) := by
  have hy' : ¬ y ≤ 0 := not_le.mpr hy
  have hpres : present (some t) = true := by
    simp [present, ht]
  refine ⟨by simp [searchMovies, present], ?_, ?_, ?_, ?_⟩
  · refine ⟨db.filter (movieMatches
      { title := none, director := none, genre := none, year := some y }), ?_, ?_⟩
    · simp [searchMovies, if_neg hy']
    · intro m
      rw [List.mem_filter]
      simp [movieMatches, present]
  · refine ⟨db.filter (movieMatches
      { title := some t, director := none, genre := none, year := none }), ?_⟩
    simp [searchMovies, present, ht]
  · refine ⟨db.filter (movieMatches
      { title := none, director := some t, genre := none, year := none }), ?_⟩
    simp [searchMovies, present, ht]
  · refine ⟨db.filter (movieMatches
      { title := none, director := none, genre := some t, year := none }), ?_⟩
    simp [searchMovies, present, ht]

/-- Witness for C8: on the demo catalog the bare search is rejected, the
year-1994 search returns exactly the two 1994 items, and a genre search
is accepted. -/
theorem searchMovies_contract_check :
    searchMovies demoDb { title := none, director := none, genre := none, year := some 1994 }
      = .ok [sampleMovie, pulpFiction] ∧
    searchMovies demoDb { title := none, director := none, genre := none, year := none }
      = .badRequest "Please provide at least one search criterion (title, director, genre, or year)." ∧
    (∃ rows, searchMovies demoDb
        { title := none, director := none, genre := some "crime", year := none } = .ok rows) := by
  have h := searchMovies_contract demoDb 1994 "crime" (by decide) (by decide)
  exact ⟨by decide, h.1, h.2.2.2.2⟩

/-- C9: deleting an id that matches no item answers 404 with the state
unchanged, deleting an existing id removes it and answers 200, and a 200
answer implies the id existed — deleting an absent item never reports
success. -/
theorem deleteMovie_contract (db : List Movie) (i : Int) (hi : 0 < i) :
    ((∀ m ∈ db, m.id ≠ i) → deleteMovie db i = (db, .notFound)) ∧
    ((∃ m ∈ db, m.id = i) →
      deleteMovie db i = (db.filter (fun m => !(m.id == i)), .ok)) ∧
    ((deleteMovie db i).2 = .ok → ∃ m ∈ db, m.id = i) := by
  have hi' : ¬ i ≤ 0 := not_le.mpr hi
  refine ⟨?_, ?_, ?_⟩
  · intro habs
    have hc : db.countP (fun m => m.id == i) = 0 := by
      rw [List.countP_eq_zero]
      intro m hm
      simp [habs m hm]
    simp [deleteMovie, if_neg hi', hc]
  · rintro ⟨m, hm, hmi⟩
    have hc : ¬ db.countP (fun m => m.id == i) = 0 := by
      have hpos : 0 < db.countP (fun m => m.id == i) :=
        List.countP_pos_iff.mpr ⟨m, hm, by simp [hmi]⟩
      omega
    simp [deleteMovie, if_neg hi', hc]
  · intro hok
    by_contra habs
    push_neg at habs
    have hc : db.countP (fun m => m.id == i) = 0 := by
      rw [List.countP_eq_zero]
      intro m hm
      simp [habs m hm]
    simp [deleteMovie, if_neg hi', hc] at hok

/-- Witness for C9: deleting the absent id 9 of the demo catalog answers
404 and changes nothing; deleting id 3 removes Heat and answers 200. -/
theorem deleteMovie_contract_check :
    deleteMovie demoDb 9 = (demoDb, DeleteResponse.notFound) ∧
    deleteMovie demoDb 3 = ([sampleMovie, pulpFiction], DeleteResponse.ok) := by
  have h9 := deleteMovie_contract demoDb 9 (by decide)
  have h3 := deleteMovie_contract demoDb 3 (by decide)
  exact ⟨h9.1 (by decide), (h3.2.1 ⟨heat, by decide, rfl⟩).trans (by decide)⟩

/-- Counterexample for C10 as stated: the no-op update of the present
Heat row changes no column value, yet the endpoint answers 200, not 404 —
the driver requests FOUND_ROWS, so affectedRows counts the matched row
even though nothing changed. -/
theorem updateMovie_noop_cex :
    updateMovie [heat] 3 noopUpdate = ([heat], UpdateResponse.ok) ∧
    (updateMovie [heat] 3 noopUpdate).2 ≠ UpdateResponse.notFound := by decide

/-- C10 (amended): for a well-formed id and a valid nonempty body, the
update answers 200 whenever some row has the requested id — even when the
provided values equal the stored ones — and 404 exactly when no row has
the id; a no-op update on a present item is thus distinguishable from an
update of an absent one. -/
theorem updateMovie_matched (db : List Movie) (i : Int) (u : MovieUpdate)
    (hi : 0 < i) (hval : validateMovieUpdate u = none)
    (hsome : ¬ (u.title.isNone ∧ u.director.isNone ∧ u.year.isNone ∧
      u.genre.isNone ∧ u.description.isNone ∧ u.poster_url.isNone)) :
    ((∃ m ∈ db, m.id = i) → updateMovie db i u
        = (db.map (fun m => if m.id == i then applyUpdate u m else m), .ok)) ∧
    ((∀ m ∈ db, m.id ≠ i) → updateMovie db i u = (db, .notFound)) := by
  have hi' : ¬ i ≤ 0 := not_le.mpr hi
  constructor
  · rintro ⟨m, hm, hmi⟩
    have hc : ¬ db.countP (fun m => m.id == i) = 0 := by
      have hpos : 0 < db.countP (fun m => m.id == i) :=
        List.countP_pos_iff.mpr ⟨m, hm, by simp [hmi]⟩
      omega
    simp only [updateMovie, if_neg hi', hval, if_neg hsome, if_neg hc]
  · intro habs
    have hc : db.countP (fun m => m.id == i) = 0 := by
      rw [List.countP_eq_zero]
      intro m hm
      simp [habs m hm]
    simp only [updateMovie, if_neg hi', hval, if_neg hsome, if_pos hc]

/-- Witness for C10: the no-op body on the demo catalog answers 200 for
the present id 3 and 404 for the absent id 9. -/
theorem updateMovie_matched_check :
    updateMovie demoDb 3 noopUpdate
      = (demoDb.map (fun m => if m.id == 3 then applyUpdate noopUpdate m else m),
          UpdateResponse.ok) ∧
    updateMovie demoDb 9 noopUpdate = (demoDb, UpdateResponse.notFound) := by
  have h3 := updateMovie_matched demoDb 3 noopUpdate (by decide) (by decide) (by decide)
  have h9 := updateMovie_matched demoDb 9 noopUpdate (by decide) (by decide) (by decide)
  exact ⟨h3.1 ⟨heat, by decide, rfl⟩, h9.2 (by decide)⟩
